import Mathlib

/-!
Shallow embedding of odSync (src/main.go), a pull-through file cache.

The embedding models:
  * the on-disk state of one cache entry (object file, digest sidecar,
    matching temp artifacts) as `FS`;
  * `calculateChecksum` and `isFileComplete` (main.go:227-269) as pure
    functions over `FS`, parameterised by the digest function `hash`
    (standing for SHA-256 in lowercase hex);
  * `downloadFile` (main.go:150-225) as a pure function over `FS` and an
    environment `DlEnv` recording the upstream response and which local
    I/O operations fail;
  * `proxyHandler` (main.go:100-146) as a pure function combining the
    above, taking the entry states observed at its two pre-download
    checks (the second models the state after waiting for the per-key
    lock);
  * `filepath.Join`/`filepath.Clean` (lexical path cleaning) for the
    storage-path computation at main.go:102;
  * the per-key lock table (`getFileLock`/`cleanupLock`, main.go:91-98)
    as an interleaving transition system over thread phases.
-/

namespace OdSync

/-- A regular file or directory as seen by the cache: whether it is a
directory, its byte content, and whether opening/reading it succeeds
(modelling transient read failures in `calculateChecksum`). -/
structure GoFile where
  isDir : Bool
  content : List Nat
  readable : Bool
deriving DecidableEq

/-- On-disk state of a single cache entry: the object file at `path`
(if any), the number of temp artifacts matching `path + ".tmp.*"`, and
the contents of the sidecar `path + ".sha256"` (if it exists). -/
structure FS where
  obj : Option GoFile
  temps : Nat
  sidecar : Option String
deriving DecidableEq

/-- `calculateChecksum` (main.go:256-269): open the object and stream it
through the hasher; any open or read failure (including reading a
directory) yields the empty string. -/
def calculateChecksum (hash : List Nat → String) (fs : FS) : String :=
  match fs.obj with
  | none => ""
  | some f => if f.readable ∧ f.isDir = false then hash f.content else ""

/-- `isFileComplete` (main.go:227-254): stat the object (missing, a
directory, or zero length ⇒ incomplete); any matching temp artifact ⇒
incomplete; if the sidecar exists and the recomputed digest differs,
delete the object and the sidecar and report incomplete. Returns the
verdict together with the resulting on-disk state. -/
def isFileComplete (hash : List Nat → String) (fs : FS) : Bool × FS :=
  match fs.obj with
  | none => (false, fs)
  | some f =>
    if f.isDir ∨ f.content.length = 0 then (false, fs)
    else if 0 < fs.temps then (false, fs)
    else
      match fs.sidecar with
      | none => (true, fs)
      | some expected =>
        if calculateChecksum hash fs ≠ expected then
          (false, { fs with obj := none, sidecar := none })
        else (true, fs)

/-- A concrete stand-in digest function used to instantiate witnesses. -/
def hash0 : List Nat → String :=
  fun l => String.mk (List.replicate l.length 'h')

/-- Environment of one `downloadFile` call: the upstream response
(`netErr` for a transport failure of `http.Get`, otherwise `status`,
`contentLength` — Go's `resp.ContentLength`, `-1` when unknown — and the
`body` bytes actually delivered) and which local I/O operations fail. -/
structure DlEnv where
  netErr : Bool
  status : Nat
  contentLength : Int
  body : List Nat
  mkdirErr : Bool
  createErr : Bool
  copyErr : Bool
  syncErr : Bool
  sidecarErr : Bool
  renameErr : Bool
deriving DecidableEq

/-- The error returns of `downloadFile` (main.go:150-225), in source
order. `upstreamNotFound` is `errUpstreamNotFound` (main.go:148). -/
inductive DlErr where
  | fetchError
  | upstreamNotFound
  | upstreamStatus (code : Nat)
  | mkdirError
  | createTempError
  | downloadError
  | incompleteDownload
  | syncError
  | renameError
deriving DecidableEq

/-- Outcome of the body of `downloadFile` after the temp artifact has
been created (main.go:189-224), before the deferred cleanup runs: the
error (if any), the on-disk state at return, and the `success` flag the
deferred function will observe. -/
structure Attempt where
  err : Option DlErr
  fs : FS
  success : Bool
deriving DecidableEq

/-- main.go:189-224, on a state `fs` that already contains this
attempt's temp artifact: copy the body into the temp file while hashing
(`copyErr` aborts it), check the content length (only when
`resp.ContentLength > 0`), sync, best-effort write of the sidecar
(failure only logged), then atomically rename the temp artifact onto
the object path. -/
def downloadFileBody (hash : List Nat → String) (env : DlEnv) (fs : FS) : Attempt :=
  if env.copyErr then ⟨some .downloadError, fs, false⟩
  else if env.contentLength > 0 ∧ (env.body.length : Int) ≠ env.contentLength then
    ⟨some .incompleteDownload, fs, false⟩
  else if env.syncErr then ⟨some .syncError, fs, false⟩
  else
    let fs1 := if env.sidecarErr then fs else { fs with sidecar := some (hash env.body) }
    if env.renameErr then ⟨some .renameError, fs1, false⟩
    else ⟨none, { fs1 with temps := fs1.temps - 1, obj := some ⟨false, env.body, true⟩ }, true⟩

/-- The deferred function of `downloadFile` (main.go:182-187): close
the temp file and, when `success` was never set, remove the temp
artifact. -/
def deferCleanup (a : Attempt) : Option DlErr × FS :=
  if a.success then (a.err, a.fs)
  else (a.err, { a.fs with temps := a.fs.temps - 1 })

/-- `downloadFile` (main.go:150-225): fetch from upstream (transport
error, 404, or other non-200 status abort before any local write),
create the directory and the uniquely named temp artifact (raising the
matching-temp count), run the body, and finally the deferred cleanup:
when `success` is still false the temp artifact is removed. -/
def downloadFile (hash : List Nat → String) (fs : FS) (env : DlEnv) : Option DlErr × FS :=
  if env.netErr then (some .fetchError, fs)
  else if env.status = 404 then (some .upstreamNotFound, fs)
  else if env.status ≠ 200 then (some (.upstreamStatus env.status), fs)
  else if env.mkdirErr then (some .mkdirError, fs)
  else if env.createErr then (some .createTempError, fs)
  else deferCleanup (downloadFileBody hash env { fs with temps := fs.temps + 1 })

/-- The four ways `proxyHandler` answers a request: `c.File` with
status 200, or the JSON error with status 404, 502 or 500. -/
inductive Outcome where
  | serve200
  | notFound404
  | badGateway502
  | internal500
deriving DecidableEq

/-- `proxyHandler` (main.go:100-146): serve on a fast-path completeness
hit; otherwise take the per-key lock, re-check (on `fs2`, the entry
state after waiting, which a concurrent filler may have changed), and
on a second miss download; `errUpstreamNotFound` answers 404, any other
download error 502; after a successful download a failed verification
answers 500, a successful one serves the file. Returns the outcome and
the final entry state. -/
def proxyHandler (hash : List Nat → String) (fs1 fs2 : FS) (env : DlEnv) :
    Outcome × FS :=
  let r1 := isFileComplete hash fs1
  if r1.1 then (.serve200, r1.2)
  else
    let r2 := isFileComplete hash fs2
    if r2.1 then (.serve200, r2.2)
    else
      let d := downloadFile hash r2.2 env
      match d.1 with
      | some DlErr.upstreamNotFound => (.notFound404, d.2)
      | some _ => (.badGateway502, d.2)
      | none =>
        let r3 := isFileComplete hash d.2
        if r3.1 then (.serve200, r3.2) else (.internal500, r3.2)

/-! ### Storage path mapper: `filepath.Join` / `filepath.Clean`

`proxyHandler` computes `localPath := filepath.Join(config.StorageDir,
requestPath)` (main.go:102). Go's `filepath.Join` concatenates the
non-empty elements with a separator and applies the purely lexical
`filepath.Clean`. -/

/-- Split a character list on the path separator, like
`strings.Split(p, "/")`: `"a//b"` gives `["a", "", "b"]`. -/
def splitSlash : List Char → List (List Char)
  | [] => [[]]
  | c :: cs =>
    if c = '/' then [] :: splitSlash cs
    else
      match splitSlash cs with
      | [] => [[c]]
      | s :: ss => (c :: s) :: ss

/-- Join segments with the path separator. -/
def joinSlash : List (List Char) → List Char
  | [] => []
  | [s] => s
  | s :: ss => s ++ '/' :: joinSlash ss

/-- One step of Go's `filepath.Clean` element loop, processing segment
`seg` against the (reversed) output stack `acc`: drop empty and `"."`
segments; `".."` pops a poppable element, is dropped at the root of a
rooted path, and is kept on a relative path with nothing to pop. -/
def cleanPush (rooted : Bool) (acc : List (List Char)) (seg : List Char) : List (List Char) :=
  if seg = [] ∨ seg = ['.'] then acc
  else if seg = ['.', '.'] then
    match acc with
    | [] => if rooted then [] else [['.', '.']]
    | a :: rest => if a = ['.', '.'] then ['.', '.'] :: a :: rest else rest
  else seg :: acc

/-- Whether the path is rooted (begins with the separator). -/
def isRooted (cs : List Char) : Bool :=
  match cs with
  | '/' :: _ => true
  | _ => false

/-- Go's `filepath.Clean` on a slash-separated path: lexical
normalisation; the empty result becomes `"."` (or `"/"` when rooted). -/
def goClean (p : String) : String :=
  let cs := p.data
  let rooted := isRooted cs
  let segs := (splitSlash cs).foldl (cleanPush rooted) []
  let out := joinSlash segs.reverse
  String.mk (if rooted then '/' :: out else if out = [] then ['.'] else out)

/-- Go's `filepath.Join` of two elements: empty elements are skipped and
the result is cleaned; `Join("", "")` is `""`. -/
def goJoin (a b : String) : String :=
  if a.data = [] ∧ b.data = [] then ""
  else if a.data = [] then goClean b
  else if b.data = [] then goClean a
  else goClean (a ++ "/" ++ b)

/-- main.go:102: `localPath := filepath.Join(config.StorageDir, requestPath)`. -/
def localPathFor (storageDir requestPath : String) : String :=
  goJoin storageDir requestPath

/-- Whether `p` lies strictly inside the directory `root`, lexically:
the cleaned root followed by a separator is a prefix of the cleaned
path. -/
def insideRoot (root p : String) : Bool :=
  List.isPrefixOf ((goClean root).data ++ ['/']) (goClean p).data

/-! ### Key lock manager: `getFileLock` / `cleanupLock`

`FileDownloader.locks` is a `sync.Map` from path to `*sync.Mutex`
(main.go:25-27). `getFileLock` is `LoadOrStore(path, &sync.Mutex{})`
(main.go:91-94) and `cleanupLock` is `Delete(path)` (main.go:96-98).
In `proxyHandler` each request for a key runs, in order:
`getFileLock`; `Lock`; the fill critical section; then the deferred
calls in LIFO order — `cleanupLock` first (registered second,
main.go:117), `Unlock` last (registered first, main.go:116).

We model the requests for ONE key as threads stepping through these
operations, with fresh mutexes numbered by a counter. A thread in phase
`inCS` has returned from `Lock` and is performing the fill (the region
the spec's fill permit must keep exclusive). -/

/-- Where a request thread is in the lock protocol: not started; holding
a reference `m` to the mutex `getFileLock` returned; inside the fill
critical section after locking `m`; past the deferred `cleanupLock`;
done after `Unlock`. -/
inductive Phase where
  | start
  | haveMutex (m : Nat)
  | inCS (m : Nat)
  | cleaned (m : Nat)
  | done
deriving DecidableEq

/-- Shared state of the lock manager for a single key plus the phase of
every request thread: the `sync.Map` entry for this key (the id of the
stored mutex, if present), a counter of mutexes allocated so far, and
the set of currently-held mutex ids. -/
structure LMState where
  tableEntry : Option Nat
  nextId : Nat
  locked : List Nat
  threads : List Phase
deriving DecidableEq

/-- The four operations a request thread performs on the lock manager. -/
inductive LockOp where
  | getLock
  | lock
  | cleanup
  | unlock
deriving DecidableEq

/-- One interleaving step: thread `t` performs `op`. Returns `none` when
the operation is not enabled (wrong phase, or `lock` on a held mutex —
the thread blocks). `getLock` is `LoadOrStore`: it returns the stored
mutex or stores a fresh one; `cleanup` is `Delete`, removing whatever
entry the map currently holds; `unlock` releases the thread's mutex. -/
def lmStep (s : LMState) (t : Nat) (op : LockOp) : Option LMState :=
  match s.threads.get? t, op with
  | some .start, .getLock =>
    match s.tableEntry with
    | some m => some { s with threads := s.threads.set t (.haveMutex m) }
    | none =>
      some { s with tableEntry := some s.nextId, nextId := s.nextId + 1,
                    threads := s.threads.set t (.haveMutex s.nextId) }
  | some (.haveMutex m), .lock =>
    if m ∈ s.locked then none
    else some { s with locked := m :: s.locked, threads := s.threads.set t (.inCS m) }
  | some (.inCS m), .cleanup =>
    some { s with tableEntry := none, threads := s.threads.set t (.cleaned m) }
  | some (.cleaned m), .unlock =>
    some { s with locked := s.locked.erase m, threads := s.threads.set t .done }
  | _, _ => none

/-- Run a schedule of steps; `none` if any step is not enabled, so a
`some` result is a genuine interleaving of the threads. -/
def lmRun (s : LMState) : List (Nat × LockOp) → Option LMState
  | [] => some s
  | (t, op) :: rest =>
    match lmStep s t op with
    | none => none
    | some s₁ => lmRun s₁ rest

/-- Number of threads currently inside the fill critical section. -/
def countInCS (s : LMState) : Nat :=
  (s.threads.filter fun p => match p with | .inCS _ => true | _ => false).length

/-- Initial state for `n` concurrent requests to one never-before-seen
key: empty lock table, no mutex allocated, all threads at `start`. -/
def lmInit (n : Nat) : LMState :=
  ⟨none, 0, [], List.replicate n .start⟩

/-- A concrete interleaving of three requests for the same key: thread 0
fills and returns (its deferred `cleanupLock` deletes the map entry
while thread 1 is still waiting on the stored mutex); thread 1 then
acquires that orphaned mutex; thread 2 arrives, `LoadOrStore` finds no
entry and hands it a fresh mutex, which it locks immediately. -/
def raceTrace : List (Nat × LockOp) :=
  [(0, .getLock), (0, .lock), (1, .getLock), (0, .cleanup), (0, .unlock),
   (1, .lock), (2, .getLock), (2, .lock)]

/-- C1: the Key Lock Manager does NOT grant at most one concurrent fill
permit per key. The schedule `raceTrace` is a legal interleaving of
three requests for one never-before-seen key (every step enabled, so
`lmRun` returns `some`), and in its final state two threads are inside
the fill critical section simultaneously — because thread 0's deferred
`cleanupLock` deleted the key's map entry while thread 1 still waited
on the stored mutex, letting thread 2 obtain and lock a fresh mutex.
Each of those threads contacts the origin, contradicting
at-most-one-fetch. -/
theorem lockManager_race_two_fills :
    (lmRun (lmInit 3) raceTrace).map countInCS = some 2 := by
  decide

/-- C2: the storage path mapper does NOT confine every request path to
the storage root. For the request path `/../../etc/passwd` the handler
computes `localPath = filepath.Join("./storage", "/../../etc/passwd")
= "../etc/passwd"`, which lies outside the storage root `./storage`;
no rejection or sanitisation intervenes before the path is used. -/
theorem pathTraversal_escapes_root :
    localPathFor "./storage" "/../../etc/passwd" = "../etc/passwd" ∧
    insideRoot "./storage" (localPathFor "./storage" "/../../etc/passwd") = false := by
  exact ⟨by decide, by decide⟩

/-- C3: the completeness check returns COMPLETE exactly when the object
file exists, is not a directory, has non-zero size, no matching temp
artifact exists, and either no sidecar exists or the recomputed digest
of the object equals the sidecar's contents; in particular a
structurally sound file with no sidecar is COMPLETE. -/
theorem isFileComplete_complete_iff (hash : List Nat → String) (fs : FS) :
    (isFileComplete hash fs).1 = true ↔
      (∃ f, fs.obj = some f ∧ f.isDir = false ∧ f.content.length ≠ 0) ∧
      fs.temps = 0 ∧
      (fs.sidecar = none ∨ fs.sidecar = some (calculateChecksum hash fs)) := by
  obtain ⟨obj, temps, sidecar⟩ := fs
  cases obj with
  | none => simp [isFileComplete]
  | some f =>
    cases hd : f.isDir with
    | true => simp [isFileComplete, hd]
    | false =>
      by_cases hc : f.content = []
      · simp [isFileComplete, hd, hc]
      · cases temps with
        | succ t => simp [isFileComplete, hd, hc, List.length_eq_zero]
        | zero =>
          cases sidecar with
          | none => simp [isFileComplete, hd, hc, List.length_eq_zero]
          | some expected =>
            by_cases hm : calculateChecksum hash ⟨some f, 0, some expected⟩ = expected
            · simp [isFileComplete, hd, hc, hm, List.length_eq_zero]
            · simp only [isFileComplete, hd, hc, hm, List.length_eq_zero]
              simp [List.length_eq_zero, hc, hm]
              exact fun _ h => hm h.symm

/-- C4: when the object file exists with non-zero size, is not a
directory, no matching temp artifact exists, the sidecar exists, and
the recomputed digest differs from the sidecar contents, the
completeness check deletes both the object and the sidecar and returns
INCOMPLETE — and a subsequent check of the resulting state is still
INCOMPLETE, so a later request for the key re-fetches. -/
theorem isFileComplete_self_heals (hash : List Nat → String) (fs : FS)
    (f : GoFile) (sc : String)
    (hobj : fs.obj = some f) (hdir : f.isDir = false)
    (hsz : f.content.length ≠ 0) (htmp : fs.temps = 0)
    (hsc : fs.sidecar = some sc)
    (hmis : calculateChecksum hash fs ≠ sc) :
    isFileComplete hash fs = (false, { fs with obj := none, sidecar := none }) ∧
    (isFileComplete hash { fs with obj := none, sidecar := none }).1 = false := by
  obtain ⟨obj, temps, sidecar⟩ := fs
  simp only at hobj hsc htmp hmis
  subst hobj hsc htmp
  constructor
  · simp [isFileComplete, hdir, hsz, hmis]
  · simp [isFileComplete]

/-- Witness for C4 at a concrete corrupted entry. -/
theorem isFileComplete_self_heals_witness :
    isFileComplete hash0 ⟨some ⟨false, [1], true⟩, 0, some "zz"⟩ =
      (false, ⟨none, 0, none⟩) ∧
    (isFileComplete hash0 (⟨none, 0, none⟩ : FS)).1 = false := by
  have h := isFileComplete_self_heals hash0 ⟨some ⟨false, [1], true⟩, 0, some "zz"⟩
    ⟨false, [1], true⟩ "zz" rfl rfl (by decide) rfl rfl (by decide)
  exact h

/-- Case analysis of the post-create body of `downloadFile`: either it
succeeds (no error, the temp artifact is consumed by the rename and the
fetched bytes are published at the object path) or it fails with an
error other than `upstreamNotFound`, leaving the temp count as it found
it (the deferred removal has not run yet). -/
lemma downloadFileBody_cases (hash : List Nat → String) (env : DlEnv) (fsx : FS) :
    ((downloadFileBody hash env fsx).success = true ∧
     (downloadFileBody hash env fsx).err = none ∧
     (downloadFileBody hash env fsx).fs.temps = fsx.temps - 1 ∧
     (downloadFileBody hash env fsx).fs.obj = some ⟨false, env.body, true⟩) ∨
    ((downloadFileBody hash env fsx).success = false ∧
     (downloadFileBody hash env fsx).fs.temps = fsx.temps ∧
     ∃ e, (downloadFileBody hash env fsx).err = some e ∧ e ≠ DlErr.upstreamNotFound) := by
  unfold downloadFileBody
  split_ifs <;> simp

/-- The deferred cleanup never changes the error being returned. -/
lemma deferCleanup_fst (a : Attempt) : (deferCleanup a).1 = a.err := by
  unfold deferCleanup
  split <;> rfl

/-- How the body's length check decides, and what a length-mismatch
failure leaves behind. -/
lemma downloadFileBody_incomplete_iff (hash : List Nat → String) (env : DlEnv) (fsx : FS) :
    ((downloadFileBody hash env fsx).err = some DlErr.incompleteDownload ↔
      env.copyErr = false ∧ 0 < env.contentLength ∧
        (env.body.length : Int) ≠ env.contentLength) ∧
    ((downloadFileBody hash env fsx).err = some DlErr.incompleteDownload →
      downloadFileBody hash env fsx = ⟨some DlErr.incompleteDownload, fsx, false⟩) := by
  unfold downloadFileBody
  split_ifs <;> simp_all

/-- `downloadFile` returns `errUpstreamNotFound` exactly when the fetch
itself succeeded and the origin answered 404. -/
lemma downloadFile_notFound_iff (hash : List Nat → String) (fs : FS) (env : DlEnv) :
    (downloadFile hash fs env).1 = some DlErr.upstreamNotFound ↔
      env.netErr = false ∧ env.status = 404 := by
  unfold downloadFile
  split_ifs with h1 h2 h3 h4 h5
  · simp_all
  · simp_all
  · simp_all
  · simp_all
  · simp_all
  · rcases downloadFileBody_cases hash env { fs with temps := fs.temps + 1 } with
      ⟨hs, he, _, _⟩ | ⟨hs, _, e, he, hne⟩
    · simp_all [deferCleanup_fst]
    · simp_all [deferCleanup_fst]

/-- C5: the handler's outcome is exactly one of 200/404/502/500:
404 when and only when the download was classified `upstreamNotFound`
(equivalently: the fetch succeeded and the origin answered 404), 502
when and only when the download failed with any other error, 500 when
and only when the download succeeded but the post-commit completeness
check failed, and 200 in exactly the remaining cases (fast-path hit,
post-lock hit, or verified fill). -/
theorem proxyHandler_outcomes (hash : List Nat → String) (fs1 fs2 : FS) (env : DlEnv) :
    ((proxyHandler hash fs1 fs2 env).1 = Outcome.notFound404 ↔
       (isFileComplete hash fs1).1 = false ∧ (isFileComplete hash fs2).1 = false ∧
       (downloadFile hash (isFileComplete hash fs2).2 env).1 = some DlErr.upstreamNotFound) ∧
    ((proxyHandler hash fs1 fs2 env).1 = Outcome.badGateway502 ↔
       (isFileComplete hash fs1).1 = false ∧ (isFileComplete hash fs2).1 = false ∧
       (∃ e, (downloadFile hash (isFileComplete hash fs2).2 env).1 = some e ∧
             e ≠ DlErr.upstreamNotFound)) ∧
    ((proxyHandler hash fs1 fs2 env).1 = Outcome.internal500 ↔
       (isFileComplete hash fs1).1 = false ∧ (isFileComplete hash fs2).1 = false ∧
       (downloadFile hash (isFileComplete hash fs2).2 env).1 = none ∧
       (isFileComplete hash (downloadFile hash (isFileComplete hash fs2).2 env).2).1 = false) ∧
    ((proxyHandler hash fs1 fs2 env).1 = Outcome.serve200 ↔
       ((isFileComplete hash fs1).1 = true ∨ (isFileComplete hash fs2).1 = true ∨
        ((downloadFile hash (isFileComplete hash fs2).2 env).1 = none ∧
         (isFileComplete hash (downloadFile hash (isFileComplete hash fs2).2 env).2).1 = true))) ∧
    ((downloadFile hash (isFileComplete hash fs2).2 env).1 = some DlErr.upstreamNotFound ↔
       env.netErr = false ∧ env.status = 404) := by
  have hnf := downloadFile_notFound_iff hash (isFileComplete hash fs2).2 env
  cases h1 : (isFileComplete hash fs1).1 with
  | true =>
    exact ⟨by simp [proxyHandler, h1], by simp [proxyHandler, h1],
           by simp [proxyHandler, h1], by simp [proxyHandler, h1], hnf⟩
  | false =>
    cases h2 : (isFileComplete hash fs2).1 with
    | true =>
      exact ⟨by simp [proxyHandler, h1, h2], by simp [proxyHandler, h1, h2],
             by simp [proxyHandler, h1, h2], by simp [proxyHandler, h1, h2], hnf⟩
    | false =>
      cases hd : (downloadFile hash (isFileComplete hash fs2).2 env).1 with
      | none =>
        cases h3 : (isFileComplete hash (downloadFile hash (isFileComplete hash fs2).2 env).2).1 with
        | true =>
          exact ⟨by simp [proxyHandler, h1, h2, hd, h3], by simp [proxyHandler, h1, h2, hd, h3],
                 by simp [proxyHandler, h1, h2, hd, h3], by simp [proxyHandler, h1, h2, hd, h3],
                 hd ▸ hnf⟩
        | false =>
          exact ⟨by simp [proxyHandler, h1, h2, hd, h3], by simp [proxyHandler, h1, h2, hd, h3],
                 by simp [proxyHandler, h1, h2, hd, h3], by simp [proxyHandler, h1, h2, hd, h3],
                 hd ▸ hnf⟩
      | some e =>
        cases e <;>
          exact ⟨by simp [proxyHandler, h1, h2, hd], by simp [proxyHandler, h1, h2, hd],
                 by simp [proxyHandler, h1, h2, hd], by simp [proxyHandler, h1, h2, hd],
                 hd ▸ hnf⟩

/-- Upstream success whose `resp.ContentLength` is 0 while five body
bytes are delivered: the length check `resp.ContentLength > 0 && ...`
is skipped. -/
def zeroLengthEnv : DlEnv := ⟨false, 200, 0, [1, 2, 3, 4, 5], false, false, false, false, false, false⟩

/-- C6 counterexample: the upstream response provides the expected
length 0, the actual byte count 5 differs, and yet `downloadFile`
succeeds (returns no error at all) instead of failing with a
length-mismatch error, because the code only checks
`resp.ContentLength > 0`. -/
theorem zero_expected_length_unchecked :
    zeroLengthEnv.contentLength = 0 ∧
    (zeroLengthEnv.body.length : Int) ≠ zeroLengthEnv.contentLength ∧
    (downloadFile hash0 ⟨none, 0, none⟩ zeroLengthEnv).1 = none := by
  refine ⟨rfl, by decide, by decide⟩

/-- C6 (amended): the commit fails with the length-mismatch error
exactly when the fetch and all earlier local steps succeeded, the
provided expected length is positive, and the actual byte count
differs; a zero (or negative/unknown) expected length skips the check,
and equality passes it. On that failure the temp artifact is discarded
and the on-disk entry is left exactly as it was. -/
theorem downloadFile_length_check (hash : List Nat → String) (fs : FS) (env : DlEnv) :
    ((downloadFile hash fs env).1 = some DlErr.incompleteDownload ↔
      env.netErr = false ∧ env.status = 200 ∧ env.mkdirErr = false ∧
      env.createErr = false ∧ env.copyErr = false ∧
      0 < env.contentLength ∧ (env.body.length : Int) ≠ env.contentLength) ∧
    ((downloadFile hash fs env).1 = some DlErr.incompleteDownload →
      downloadFile hash fs env = (some DlErr.incompleteDownload, fs)) := by
  have hb := downloadFileBody_incomplete_iff hash env { fs with temps := fs.temps + 1 }
  constructor
  · unfold downloadFile
    split_ifs with h1 h2 h3 h4 h5
    · simp_all
    · simp_all
    · simp_all
    · simp_all
    · simp_all
    · rw [deferCleanup_fst, hb.1]
      simp_all
  · intro h
    unfold downloadFile at h ⊢
    split_ifs at h ⊢ with h1 h2 h3 h4 h5
    · simp at h
    · simp at h
    · simp at h
    · simp at h
    · simp at h
    · rw [deferCleanup_fst] at h
      rw [hb.2 h]
      simp [deferCleanup]

/-- Witness for C6's amended theorem: expected length 3, one byte
delivered — the commit fails with the length-mismatch error and
leaves the entry untouched. -/
def mismatchEnv : DlEnv := ⟨false, 200, 3, [1], false, false, false, false, false, false⟩

theorem downloadFile_length_check_witness :
    downloadFile hash0 ⟨none, 0, none⟩ mismatchEnv =
      (some DlErr.incompleteDownload, ⟨none, 0, none⟩) :=
  (downloadFile_length_check hash0 ⟨none, 0, none⟩ mismatchEnv).2 (by decide)

/-- C7: after any single `downloadFile` attempt, no temp artifact
created by that attempt remains (the count of matching temp artifacts
is exactly what it was before the call), and on success the temp
artifact has been renamed onto the final object path, publishing the
fetched bytes. -/
theorem downloadFile_no_orphan_temp (hash : List Nat → String) (fs : FS) (env : DlEnv) :
    (downloadFile hash fs env).2.temps = fs.temps ∧
    ((downloadFile hash fs env).1 = none →
      (downloadFile hash fs env).2.obj = some ⟨false, env.body, true⟩) := by
  unfold downloadFile
  split_ifs with h1 h2 h3 h4 h5
  · simp
  · simp
  · simp
  · simp
  · simp
  · rcases downloadFileBody_cases hash env { fs with temps := fs.temps + 1 } with
      ⟨hs, he, ht, ho⟩ | ⟨hs, ht, e, he, hne⟩
    · simp [deferCleanup, hs, he, ht, ho]
    · simp [deferCleanup, hs, ht, he]

/-- Upstream success with two body bytes and a matching expected
length; no local failure. -/
def okEnv : DlEnv := ⟨false, 200, 2, [7, 8], false, false, false, false, false, false⟩

/-- Witness for C7 at a successful concrete attempt. -/
theorem downloadFile_no_orphan_temp_witness :
    (downloadFile hash0 ⟨none, 0, none⟩ okEnv).2.temps = 0 ∧
    (downloadFile hash0 ⟨none, 0, none⟩ okEnv).2.obj = some ⟨false, [7, 8], true⟩ := by
  have h := downloadFile_no_orphan_temp hash0 ⟨none, 0, none⟩ okEnv
  exact ⟨h.1, h.2 (by decide)⟩

/-- C8: whenever the completeness check reports COMPLETE it has changed
nothing on disk, and running it again on the (unchanged) resulting
state reports COMPLETE again. -/
theorem isFileComplete_idempotent (hash : List Nat → String) (fs : FS)
    (h : (isFileComplete hash fs).1 = true) :
    isFileComplete hash fs = (true, fs) ∧
    isFileComplete hash (isFileComplete hash fs).2 = (true, fs) := by
  obtain ⟨obj, temps, sidecar⟩ := fs
  have key : isFileComplete hash ⟨obj, temps, sidecar⟩ = (true, ⟨obj, temps, sidecar⟩) := by
    cases obj with
    | none => simp [isFileComplete] at h
    | some f =>
      cases hd : f.isDir with
      | true => simp [isFileComplete, hd] at h
      | false =>
        by_cases hc : f.content = []
        · simp [isFileComplete, hd, hc] at h
        · cases temps with
          | succ t => simp [isFileComplete, hd, hc, List.length_eq_zero] at h
          | zero =>
            cases sidecar with
            | none => simp [isFileComplete, hd, hc, List.length_eq_zero]
            | some expected =>
              by_cases hm : calculateChecksum hash ⟨some f, 0, some expected⟩ = expected
              · simp [isFileComplete, hd, hc, hm, List.length_eq_zero]
              · simp [isFileComplete, hd, hc, hm, List.length_eq_zero] at h
  refine ⟨key, ?_⟩
  rw [key]
  exact key

/-- Witness for C8 at a concrete valid entry (non-empty object, no
temp artifact, sidecar matching the digest). -/
theorem isFileComplete_idempotent_witness :
    isFileComplete hash0 ⟨some ⟨false, [1], true⟩, 0, some (hash0 [1])⟩ =
      (true, ⟨some ⟨false, [1], true⟩, 0, some (hash0 [1])⟩) ∧
    isFileComplete hash0 (isFileComplete hash0 ⟨some ⟨false, [1], true⟩, 0, some (hash0 [1])⟩).2 =
      (true, ⟨some ⟨false, [1], true⟩, 0, some (hash0 [1])⟩) :=
  isFileComplete_idempotent hash0 ⟨some ⟨false, [1], true⟩, 0, some (hash0 [1])⟩ (by decide)

/-- Upstream success with an empty body and a provided expected length
of zero; no local failure. -/
def emptyBodyEnv : DlEnv := ⟨false, 200, 0, [], false, false, false, false, false, false⟩

/-- The state `downloadFile` produces in any environment like
`emptyBodyEnv` — needed to evaluate the handler's verification step. -/
lemma downloadFile_emptyBody (hash : List Nat → String) (fsx : FS) :
    downloadFile hash fsx emptyBodyEnv =
      (none, { fsx with obj := some ⟨false, [], true⟩, sidecar := some (hash []) }) := by
  simp [downloadFile, downloadFileBody, deferCleanup, emptyBodyEnv]

/-- C9: when the upstream succeeds with an empty (zero-byte) body, the
commit succeeds and publishes a zero-byte object; the post-commit
completeness check then classifies the entry INCOMPLETE (zero size),
the request is answered 500, and the entry left behind still fails the
completeness check, so every later request misses the cache and goes
back to the origin. -/
theorem emptyBody_commits_then_verification_fails (hash : List Nat → String)
    (fs1 fs2 : FS)
    (h1 : (isFileComplete hash fs1).1 = false)
    (h2 : (isFileComplete hash fs2).1 = false) :
    (downloadFile hash (isFileComplete hash fs2).2 emptyBodyEnv).1 = none ∧
    (downloadFile hash (isFileComplete hash fs2).2 emptyBodyEnv).2.obj =
      some ⟨false, [], true⟩ ∧
    (isFileComplete hash (downloadFile hash (isFileComplete hash fs2).2 emptyBodyEnv).2).1 = false ∧
    (proxyHandler hash fs1 fs2 emptyBodyEnv).1 = Outcome.internal500 ∧
    (isFileComplete hash (proxyHandler hash fs1 fs2 emptyBodyEnv).2).1 = false := by
  have hdl := downloadFile_emptyBody hash (isFileComplete hash fs2).2
  have hchk : isFileComplete hash
      { (isFileComplete hash fs2).2 with
          obj := some ⟨false, [], true⟩,
          sidecar := some (hash []) } =
      (false,
        { (isFileComplete hash fs2).2 with
            obj := some ⟨false, [], true⟩,
            sidecar := some (hash []) }) := by
    simp [isFileComplete]
  have hph : proxyHandler hash fs1 fs2 emptyBodyEnv =
      (Outcome.internal500,
        { (isFileComplete hash fs2).2 with
            obj := some ⟨false, [], true⟩,
            sidecar := some (hash []) }) := by
    simp only [proxyHandler]
    rw [if_neg (by simp [h1]), if_neg (by simp [h2]), hdl]
    simp [hchk]
  refine ⟨by rw [hdl], by rw [hdl], by rw [hdl, hchk], by rw [hph], by rw [hph, hchk]⟩

/-- Witness for C9 starting from an entirely empty entry. -/
theorem emptyBody_commits_then_verification_fails_witness :
    (downloadFile hash0 (isFileComplete hash0 ⟨none, 0, none⟩).2 emptyBodyEnv).1 = none ∧
    (downloadFile hash0 (isFileComplete hash0 ⟨none, 0, none⟩).2 emptyBodyEnv).2.obj =
      some ⟨false, [], true⟩ ∧
    (isFileComplete hash0
      (downloadFile hash0 (isFileComplete hash0 ⟨none, 0, none⟩).2 emptyBodyEnv).2).1 = false ∧
    (proxyHandler hash0 ⟨none, 0, none⟩ ⟨none, 0, none⟩ emptyBodyEnv).1 = Outcome.internal500 ∧
    (isFileComplete hash0 (proxyHandler hash0 ⟨none, 0, none⟩ ⟨none, 0, none⟩ emptyBodyEnv).2).1 =
      false :=
  emptyBody_commits_then_verification_fails hash0 ⟨none, 0, none⟩ ⟨none, 0, none⟩
    (by decide) (by decide)

/-- C10: when the sidecar exists but the object cannot be opened or
fully read, the recomputed digest is the empty string; as the stored
hex digest is non-empty the comparison fails, so the check deletes both
the object and the sidecar and returns INCOMPLETE — a transient read
failure is handled exactly like corruption. -/
theorem unreadable_object_self_heals (hash : List Nat → String) (fs : FS)
    (f : GoFile) (sc : String)
    (hobj : fs.obj = some f) (hdir : f.isDir = false)
    (hsz : f.content ≠ []) (hread : f.readable = false)
    (htmp : fs.temps = 0) (hsc : fs.sidecar = some sc) (hne : sc ≠ "") :
    calculateChecksum hash fs = "" ∧
    isFileComplete hash fs = (false, { fs with obj := none, sidecar := none }) := by
  obtain ⟨obj, temps, sidecar⟩ := fs
  simp only at hobj hsc htmp
  subst hobj hsc htmp
  have hcs : calculateChecksum hash ⟨some f, 0, some sc⟩ = "" := by
    simp [calculateChecksum, hread]
  refine ⟨hcs, ?_⟩
  simp [isFileComplete, hdir, hsz, List.length_eq_zero, hcs, hne]
  exact fun h => hne h.symm

/-- Witness for C10: an unreadable one-byte object whose sidecar holds
the correct digest of its content is still deleted together with the
sidecar. -/
theorem unreadable_object_self_heals_witness :
    calculateChecksum hash0 ⟨some ⟨false, [1], false⟩, 0, some (hash0 [1])⟩ = "" ∧
    isFileComplete hash0 ⟨some ⟨false, [1], false⟩, 0, some (hash0 [1])⟩ =
      (false, ⟨none, 0, none⟩) :=
  unreadable_object_self_heals hash0 ⟨some ⟨false, [1], false⟩, 0, some (hash0 [1])⟩
    ⟨false, [1], false⟩ (hash0 [1]) rfl rfl (by decide) rfl rfl rfl (by decide)

end OdSync
